import Mathlib

/-!
Shallow embedding of the `django_filtering` package
(`src/django_filtering/utils.py`, `filters.py`, `schema.py`).

Python strings are modelled as lists of characters (`Str`), Python's
JSON-compatible scalar values as `PyVal`, and the `str | list[str]`
lookup arguments of `utils.py` as `LookupV`.  Machinery such as
`str.split("__")` and `"__".join(...)` is modelled by executable Lean
functions with the same semantics.
-/

namespace DjangoFiltering

/-- Python strings, modelled as lists of characters. -/
abbrev Str := List Char

/-- Coerce a Lean string literal to the `Str` model. -/
def strOf (s : String) : Str := s.data

/-- JSON-compatible Python scalar values handled by the filters
(`None`, booleans, strings, integers). -/
inductive PyVal where
  | none
  | bool (b : Bool)
  | str (s : Str)
  | int (n : Int)
deriving DecidableEq, Repr

/-- The `lookup` argument of the `utils.py` helpers: either a plain
string or a sequence (list/tuple) of strings. -/
inductive LookupV where
  | str (s : Str)
  | seq (xs : List Str)
deriving DecidableEq, Repr

/-- Python truthiness of a lookup argument: an empty string and an
empty sequence are falsy. -/
def LookupV.truthy : LookupV → Bool
  | .str s => !s.isEmpty
  | .seq xs => !xs.isEmpty

/-- The double-underscore separator used by Django field lookups. -/
def du : Str := ['_', '_']

/-- `construct_field_lookup_name` from `utils.py`: appends
`"__" + lookup` (or `"__"`-joined parts for a sequence lookup) to the
field name; a `None` lookup contributes nothing. -/
def construct_field_lookup_name (field_name : Str) (lookup : Option LookupV) : Str :=
  let lookup_expr : Str :=
    match lookup with
    | Option.none => []
    | some (.str s) => List.intercalate du [[], s]
    | some (.seq xs) => List.intercalate du ([] :: xs)
  field_name ++ lookup_expr

/-- `construct_field_lookup_arg` from `utils.py`: the pair of the
constructed field-lookup name and the value, usable as a `Q` argument. -/
def construct_field_lookup_arg (field_name : Str) (value : PyVal) (lookup : Option LookupV) :
    Str × PyVal :=
  (construct_field_lookup_name field_name lookup, value)

/-- Prepend a character onto the first piece of a split result
(helper for `splitDU`). -/
def consHead (c : Char) : List Str → List Str
  | [] => [[c]]
  | r :: rs => (c :: r) :: rs

/-- Python's `s.split("__")`: split on non-overlapping occurrences of
the double underscore, scanning left to right; `"".split("__") = [""]`. -/
def splitDU : Str → List Str
  | [] => [[]]
  | [c] => [[c]]
  | c1 :: c2 :: rest =>
    if c1 = '_' ∧ c2 = '_' then [] :: splitDU rest
    else consHead c1 (splitDU (c2 :: rest))

/-- Whether a string contains a double underscore (`"__" in s`). -/
def hasDU : Str → Bool
  | [] => false
  | [_] => false
  | c1 :: c2 :: rest => (decide (c1 = '_') && decide (c2 = '_')) || hasDU (c2 :: rest)

/-- Whether a string ends with an underscore. -/
def endsU : Str → Bool
  | [] => false
  | [c] => decide (c = '_')
  | _ :: c2 :: rest => endsU (c2 :: rest)

/-- The result shape of `deconstruct_field_lookup_arg`:
`[name, {"value": value, "lookup": lookup?}]`. -/
structure QueryDataVar where
  name : Str
  value : PyVal
  lookup : Option LookupV
deriving DecidableEq, Repr

/-- `deconstruct_field_lookup_arg` from `utils.py`: split the field
lookup name on `"__"`; the head is the field name; if no lookup parts
remain, fall back to the (truthy) `lookup` argument or `"exact"`; a
single part collapses to a plain string; the `lookup` key is included
only when the result is truthy. -/
def deconstruct_field_lookup_arg (field_lookup : Str) (value : PyVal)
    (lookup : Option LookupV) : QueryDataVar :=
  match splitDU field_lookup with
  | [] => ⟨[], value, Option.none⟩
  | name :: ls =>
    let lookups : LookupV :=
      match ls with
      | [] =>
        match lookup with
        | some lk => if lk.truthy then lk else .str (strOf "exact")
        | Option.none => .str (strOf "exact")
      | [x] => .str x
      | xs => .seq xs
    ⟨name, value, if lookups.truthy then some lookups else Option.none⟩

section SplitLemmas

/-- Splitting a string free of `"__"` yields the string itself. -/
theorem splitDU_of_not_hasDU (l : Str) (h : hasDU l = false) : splitDU l = [l] := by
  induction l with
  | nil => rfl
  | cons c1 tail ih =>
    cases tail with
    | nil => rfl
    | cons c2 rest =>
      rw [splitDU]
      rw [hasDU] at h
      simp only [Bool.or_eq_false_iff, Bool.and_eq_false_iff,
        decide_eq_false_iff_not] at h
      obtain ⟨h1, h2⟩ := h
      rw [if_neg]
      · rw [ih h2]
        rfl
      · intro hc
        rcases h1 with h1 | h1 <;> exact h1 (by simp [hc.1, hc.2])

/-- Splitting `f ++ "__" ++ l` where `f` has no `"__"` and does not end
in `'_'` peels off `f` and splits the remainder. -/
theorem splitDU_append (f l : Str) (hf : hasDU f = false) (he : endsU f = false) :
    splitDU (f ++ '_' :: '_' :: l) = f :: splitDU l := by
  induction f with
  | nil =>
    show splitDU ('_' :: '_' :: l) = [] :: splitDU l
    rw [splitDU, if_pos ⟨rfl, rfl⟩]
  | cons c tail ih =>
    cases tail with
    | nil =>
      rw [endsU] at he
      simp only [decide_eq_false_iff_not] at he
      show splitDU (c :: '_' :: '_' :: l) = [c] :: splitDU l
      rw [splitDU, if_neg (by exact fun hc => he hc.1)]
      rw [splitDU, if_pos ⟨rfl, rfl⟩]
      rfl
    | cons c2 rest =>
      rw [hasDU] at hf
      simp only [Bool.or_eq_false_iff, Bool.and_eq_false_iff,
        decide_eq_false_iff_not] at hf
      obtain ⟨hf1, hf2⟩ := hf
      rw [endsU] at he
      show splitDU (c :: c2 :: (rest ++ '_' :: '_' :: l)) = (c :: c2 :: rest) :: splitDU l
      rw [splitDU]
      rw [if_neg]
      · have := ih hf2 he
        rw [show c2 :: (rest ++ '_' :: '_' :: l) = (c2 :: rest) ++ '_' :: '_' :: l from rfl]
        rw [this]
        rfl
      · intro hc
        rcases hf1 with h1 | h1 <;> exact h1 (by simp [hc.1, hc.2])

/-- A single (string) lookup contributes exactly `"__" ++ lookup`. -/
theorem construct_name_single (f l : Str) :
    construct_field_lookup_name f (some (.str l)) = f ++ '_' :: '_' :: l := by
  simp [construct_field_lookup_name, List.intercalate, du]

end SplitLemmas

/-- Claim C9: for every field name `f` not containing `"__"`, every
non-empty single lookup name `l` not containing `"__"`, and every value
`v`, deconstructing the constructed field-lookup argument recovers the
original parts — refuted when `f` ends in an underscore: for
`f = "a_"`, `l = "b"` the constructed name `"a___b"` splits back into
field `"a"` with lookup `"_b"`. -/
theorem claimC9_counterexample :
    hasDU (strOf "a_") = false
    ∧ strOf "b" ≠ []
    ∧ hasDU (strOf "b") = false
    ∧ deconstruct_field_lookup_arg
        (construct_field_lookup_name (strOf "a_") (some (.str (strOf "b"))))
        (PyVal.int 0) Option.none
      ≠ ⟨strOf "a_", PyVal.int 0, some (.str (strOf "b"))⟩ := by
  refine ⟨by decide, by decide, by decide, ?_⟩
  decide

/-- Claim C9 (amended): additionally requiring that the field name does
not end in an underscore, the round trip holds:
`deconstruct_field_lookup_arg (construct_field_lookup_name f l) v`
recovers `[f, {"value": v, "lookup": l}]`. -/
theorem claimC9_amended (f l : Str) (v : PyVal)
    (hf : hasDU f = false) (he : endsU f = false)
    (hl : l ≠ []) (hld : hasDU l = false) :
    deconstruct_field_lookup_arg (construct_field_lookup_name f (some (.str l))) v Option.none
      = ⟨f, v, some (.str l)⟩ := by
  rw [construct_name_single]
  unfold deconstruct_field_lookup_arg
  rw [splitDU_append f l hf he, splitDU_of_not_hasDU l hld]
  cases l with
  | nil => exact absurd rfl hl
  | cons c cs => rfl

/-- Witness for the amended claim C9 at `f = "age"`, `l = "gte"`,
`v = "18"`. -/
theorem claimC9_witness :
    deconstruct_field_lookup_arg
        (construct_field_lookup_name (strOf "age") (some (.str (strOf "gte"))))
        (PyVal.str (strOf "18")) Option.none
      = ⟨strOf "age", PyVal.str (strOf "18"), some (.str (strOf "gte"))⟩ :=
  claimC9_amended (strOf "age") (strOf "gte") (PyVal.str (strOf "18"))
    (by decide) (by decide) (by decide) (by decide)

/-! ## `filters.py`: lookups, `Filter`, `StickyFilter` -/

/-- Opaque entity context (a Django queryset); the filter code only
passes it through to transmuters. -/
structure QuerySet where
  tag : Nat
deriving DecidableEq, Repr

/-- A Django `Q` predicate built from a single keyword argument
(field-lookup name, value). -/
structure Q where
  arg : Str × PyVal
deriving DecidableEq, Repr

/-- A transmuter strategy: called with the cleaned value, the queryset,
and the `lookup` keyword argument (absent when the key is not in
`kwargs`). -/
abbrev Transmuter := PyVal → QuerySet → Option LookupV → Option Q

/-- The `name`/`label` data shared by all lookups (`BaseLookup`).
The name may itself be a sequence of lookup parts. -/
structure LookupCore where
  name : LookupV
  label : Str
deriving DecidableEq, Repr

/-- A model field handle supplied by the external field catalog (a
Django model `Field`): name, verbose name, help text and the field's
own enumerable choices (without the blank sentinel). -/
structure Field where
  name : Str
  verbose_name : Str
  help_text : Str
  choices : List (PyVal × Str)
deriving DecidableEq, Repr

/-- Modelled from the spec: the external field catalog's
`Field.get_choices(include_blank)` returns the field's own choices,
with the blank sentinel prepended when `include_blank` is true. -/
def Field.get_choices (f : Field) (include_blank : Bool) : List (PyVal × Str) :=
  if include_blank then (PyVal.str [], strOf "---------") :: f.choices else f.choices

/-- The `choices` argument of `ChoiceLookup`: a static list of choices
or a callable resolver receiving the lookup and the field. -/
inductive ChoicesArg where
  | static (cs : List (PyVal × Str))
  | resolver (fn : LookupCore → Field → List (PyVal × Str))

/-- `ChoiceLookup`: lookup data plus the optional `choices` argument
(`None` when omitted). -/
structure ChoiceLookup where
  core : LookupCore
  choicesArg : Option ChoicesArg

/-- Per-lookup options-schema blurb: `{"type", "label"}`, plus a
`"choices"` entry for choice lookups. -/
structure OptionsDefinition where
  type : Str
  label : Str
  choices : Option (List (PyVal × Str))
deriving DecidableEq, Repr

/-- `InputLookup.get_options_schema_definition` (inherited from
`BaseLookup`, with class attribute `type = 'input'`). -/
def InputLookup.get_options_schema_definition (lu : LookupCore) (_field : Field) :
    OptionsDefinition :=
  ⟨strOf "input", lu.label, Option.none⟩

/-- `ChoiceLookup.get_options_schema_definition`: the base blurb with
`type = 'choice'`, plus choices taken from the field when no `choices`
argument was given, from the resolver when it is callable, and from the
static list otherwise. -/
def ChoiceLookup.get_options_schema_definition (lu : ChoiceLookup) (field : Field) :
    OptionsDefinition :=
  let definition : OptionsDefinition := ⟨strOf "choice", lu.core.label, Option.none⟩
  let choices :=
    match lu.choicesArg with
    | Option.none => field.get_choices false
    | some (.resolver fn) => fn lu.core field
    | some (.static cs) => cs
  { definition with choices := some choices }

/-- A lookup bound into a filter: an `InputLookup` or a `ChoiceLookup`. -/
inductive AnyLookup where
  | input (core : LookupCore)
  | choice (lu : ChoiceLookup)

/-- The `name` attribute of a bound lookup. -/
def AnyLookup.name : AnyLookup → LookupV
  | .input c => c.name
  | .choice lu => lu.core.name

/-- A `Filter`: the bound field `name` (assigned by the FilterSet
metaclass; unassigned modelled as the empty string), the declared
lookups, the default lookup, the label and the optional custom
transmuter strategy (`None` selects `_default_transmuter`). -/
structure Filter where
  name : Str
  lookups : List AnyLookup
  default_lookup : LookupV
  label : Str
  transmuter? : Option Transmuter

/-- `Filter.clean`: the identity. -/
def Filter.clean (_f : Filter) (value : PyVal) : PyVal := value

/-- `Filter._default_transmuter`: build a single field-lookup-value `Q`
from the request lookup (defaulted to `default_lookup`). -/
def Filter._default_transmuter (f : Filter) (value : PyVal) (_qs : QuerySet)
    (kwlookup : Option LookupV) : Option Q :=
  let lookup := kwlookup.getD f.default_lookup
  some ⟨construct_field_lookup_arg f.name value (some lookup)⟩

/-- The effective strategy:
`self._transmuter = transmuter or self._default_transmuter`. -/
def Filter.transmuterFn (f : Filter) : Transmuter :=
  match f.transmuter? with
  | some t => t
  | Option.none => f._default_transmuter

/-- `Filter.transmute`: clean the value, default the `lookup` keyword
argument to `default_lookup`, and delegate to the transmuter strategy. -/
def Filter.transmute (f : Filter) (value : PyVal) (qs : QuerySet)
    (kwlookup : Option LookupV) : Option Q :=
  let value := f.clean value
  f.transmuterFn value qs (some (kwlookup.getD f.default_lookup))

/-- `Filter.__init__`: requires at least one lookup and a label;
`default_lookup` falls back to the first lookup's name when absent or
falsy; the field `name` starts out unassigned. -/
def Filter.make (lookups : List AnyLookup) (default_lookup : Option LookupV)
    (label : Option Str) (transmuter : Option Transmuter) : Except Str Filter :=
  match lookups with
  | [] => .error (strOf "Must specify at least one lookup for the filter (e.g. InputLookup).")
  | l0 :: _ =>
    let dl :=
      match default_lookup with
      | some v => if v.truthy then v else l0.name
      | Option.none => l0.name
    match label with
    | Option.none => .error (strOf "At this time, the filter label must be provided.")
    | some lbl => .ok ⟨[], lookups, dl, lbl, transmuter⟩

/-- `StickyFilter`: a filter with a sticky `default_value` and an
`unstick_value`. The Python `UNSTICK_VALUE` sentinel is modelled by
`Option.none` in `to_cleaned_value`. -/
structure StickyFilter where
  toFilter : Filter
  default_value : PyVal
  unstick_value : PyVal

/-- `StickyFilter.__init__`: runs `Filter.__init__`, then requires a
non-`None` `default_value`; `unstick_value` defaults to `None` when
omitted. -/
def StickyFilter.make (lookups : List AnyLookup) (default_lookup : Option LookupV)
    (label : Option Str) (transmuter : Option Transmuter)
    (default_value : PyVal) (unstick_value : Option PyVal) : Except Str StickyFilter :=
  match Filter.make lookups default_lookup label transmuter with
  | .error e => .error e
  | .ok f =>
    if default_value = PyVal.none then
      .error (strOf "A StickyFilter requires a default_value keyword argument value to correctly function. Please set the value.")
    else
      .ok ⟨f, default_value, unstick_value.getD PyVal.none⟩

/-- `StickyFilter.to_cleaned_value`: values equal to `unstick_value`
become the `UNSTICK_VALUE` sentinel (`Option.none`). -/
def StickyFilter.to_cleaned_value (sf : StickyFilter) (value : PyVal) : Option PyVal :=
  if value = sf.unstick_value then Option.none else some value

/-- `StickyFilter.transmute`: resolve the lookup from `kwargs`, clean
the value, contribute nothing for the unstick sentinel, and otherwise
build the single-field `Q` directly. -/
def StickyFilter.transmute (sf : StickyFilter) (value : PyVal) (_qs : QuerySet)
    (kwlookup : Option LookupV) : Option Q :=
  let lookup := kwlookup.getD sf.toFilter.default_lookup
  match sf.to_cleaned_value value with
  | Option.none => Option.none
  | some v => some ⟨construct_field_lookup_arg sf.toFilter.name v (some lookup)⟩

/-- `StickyFilter.get_sticky_Q`: the default predicate used when the
filter is absent from user input. -/
def StickyFilter.get_sticky_Q (sf : StickyFilter) (qs : QuerySet) : Option Q :=
  sf.transmute sf.default_value qs Option.none

/-! ## Concrete fixtures (mirroring `tests/market_app/filters.py` and
`tests/lab_app/filters.py`) -/

/-- The `exact` choice lookup of the `category` sticky filter. -/
def categoryLookup : AnyLookup :=
  .choice ⟨⟨.str (strOf "exact"), strOf "equals"⟩, Option.none⟩

/-- The bound sticky `category` filter of `KitchenProductFilterSet`:
sticky value `"Kitchen"`, solvent value `""`. -/
def categorySticky : StickyFilter :=
  ⟨⟨strOf "category", [categoryLookup], .str (strOf "exact"), strOf "Category", Option.none⟩,
   PyVal.str (strOf "Kitchen"), PyVal.str []⟩

/-- The custom transmuter of the `is_in_stock` filter
(`query_in_stock` in `tests/market_app/filters.py`). -/
def query_in_stock : Transmuter := fun value _qs _kw =>
  if value = PyVal.bool true then some ⟨(strOf "quantity__gt", PyVal.int 0)⟩
  else some ⟨(strOf "quantity__lt", PyVal.int 0)⟩

/-- The bound `is_in_stock` filter with its custom transmuter. -/
def is_in_stock : Filter :=
  ⟨strOf "is_in_stock",
   [.choice ⟨⟨.str (strOf "exact"), strOf ":"⟩,
     some (.static [(PyVal.bool true, strOf "Yes"), (PyVal.bool false, strOf "No")])⟩],
   .str (strOf "exact"), strOf "Is in stock?", some query_in_stock⟩

/-- A sticky filter carrying a custom transmuter, used to exercise
whether `StickyFilter.transmute` consults the strategy. -/
def brandSticky : StickyFilter :=
  ⟨⟨strOf "brand", [categoryLookup], .str (strOf "exact"), strOf "Brand", some query_in_stock⟩,
   PyVal.str (strOf "MOEN"), PyVal.str (strOf "all")⟩

/-! ## Claims about `Filter`/`StickyFilter` -/

/-- Claim C1: for every sticky filter with sticky value
`default_value` and solvent value `unstick_value`, and every context:
transmuting the sticky value yields the sticky default predicate (the
one `get_sticky_Q` produces), transmuting the solvent value yields no
predicate, and transmuting any other value yields the single-field
predicate built from that value. -/
theorem claimC1 (sf : StickyFilter) (qs : QuerySet) :
    sf.transmute sf.default_value qs Option.none = sf.get_sticky_Q qs
    ∧ sf.transmute sf.unstick_value qs Option.none = Option.none
    ∧ ∀ v, v ≠ sf.unstick_value →
        sf.transmute v qs Option.none
          = some ⟨construct_field_lookup_arg sf.toFilter.name v
              (some sf.toFilter.default_lookup)⟩ := by
  refine ⟨rfl, ?_, ?_⟩
  · simp [StickyFilter.transmute, StickyFilter.to_cleaned_value]
  · intro v hv
    simp [StickyFilter.transmute, StickyFilter.to_cleaned_value, hv]

/-- Witness for claim C1: the `category` sticky filter at the
non-solvent value `"Tools"` (concrete scenario C of the spec). -/
theorem claimC1_witness :
    PyVal.str (strOf "Tools") ≠ categorySticky.unstick_value
    ∧ categorySticky.transmute (PyVal.str (strOf "Tools")) ⟨0⟩ Option.none
        = some ⟨construct_field_lookup_arg categorySticky.toFilter.name
            (PyVal.str (strOf "Tools")) (some categorySticky.toFilter.default_lookup)⟩ :=
  ⟨by decide, (claimC1 categorySticky ⟨0⟩).2.2 (PyVal.str (strOf "Tools")) (by decide)⟩

/-- Claim C2: predicate construction is always delegated to the
configured transmuter strategy — refuted for sticky filters: a
`StickyFilter` with a custom transmuter builds the default single-field
predicate and ignores the strategy's (different) output. -/
theorem claimC2_counterexample :
    PyVal.str (strOf "Delta") ≠ brandSticky.unstick_value
    ∧ brandSticky.transmute (PyVal.str (strOf "Delta")) ⟨0⟩ Option.none
        = some ⟨(strOf "brand__exact", PyVal.str (strOf "Delta"))⟩
    ∧ brandSticky.toFilter.transmuterFn (PyVal.str (strOf "Delta")) ⟨0⟩
        (some (.str (strOf "exact")))
        = some ⟨(strOf "quantity__lt", PyVal.int 0)⟩
    ∧ brandSticky.transmute (PyVal.str (strOf "Delta")) ⟨0⟩ Option.none
        ≠ brandSticky.toFilter.transmuterFn (PyVal.str (strOf "Delta")) ⟨0⟩
            (some (.str (strOf "exact"))) := by
  refine ⟨by decide, by decide, by decide, by decide⟩

/-- Claim C2 (amended): a plain `Filter` delegates transmutation to its
configured transmuter strategy, so a custom transmuter determines the
resulting predicate; `StickyFilter.transmute`, however, builds the
single-field predicate directly, and its result is unchanged by any
custom transmuter. -/
theorem claimC2_amended :
    (∀ (f : Filter) (t : Transmuter), f.transmuter? = some t →
      ∀ (v : PyVal) (qs : QuerySet) (kw : Option LookupV),
        f.transmute v qs kw = t v qs (some (kw.getD f.default_lookup)))
    ∧ (∀ (sf : StickyFilter) (t : Option Transmuter) (v : PyVal) (qs : QuerySet)
        (kw : Option LookupV),
        StickyFilter.transmute
            ⟨{ sf.toFilter with transmuter? := t }, sf.default_value, sf.unstick_value⟩
            v qs kw
          = sf.transmute v qs kw) := by
  constructor
  · intro f t ht v qs kw
    simp [Filter.transmute, Filter.transmuterFn, ht, Filter.clean]
  · intro sf t v qs kw
    rfl

/-- Witness for the amended claim C2: the `is_in_stock` filter with its
custom `query_in_stock` transmuter. -/
theorem claimC2_witness :
    is_in_stock.transmute (PyVal.bool true) ⟨0⟩ Option.none
      = query_in_stock (PyVal.bool true) ⟨0⟩
          (some (Option.none.getD is_in_stock.default_lookup)) :=
  claimC2_amended.1 is_in_stock query_in_stock rfl (PyVal.bool true) ⟨0⟩ Option.none

/-- Claim C4: transmuting without a `lookup` keyword produces the same
predicate as transmuting with the filter's `default_lookup` explicitly
supplied — for plain and sticky filters alike. -/
theorem claimC4 (f : Filter) (sf : StickyFilter) (v : PyVal) (qs : QuerySet) :
    f.transmute v qs Option.none = f.transmute v qs (some f.default_lookup)
    ∧ sf.transmute v qs Option.none = sf.transmute v qs (some sf.toFilter.default_lookup) :=
  ⟨rfl, rfl⟩

/-- Claim C5: `default_lookup` must name one of the declared lookups —
refuted: construction with `default_lookup = "bogus"` succeeds although
the only declared lookup is `"icontains"`. -/
theorem claimC5_counterexample :
    ((Filter.make [.input ⟨.str (strOf "icontains"), strOf "contains"⟩]
        (some (.str (strOf "bogus"))) (some (strOf "Name")) Option.none).toOption.map
      Filter.default_lookup)
      = some (.str (strOf "bogus"))
    ∧ [AnyLookup.input ⟨.str (strOf "icontains"), strOf "contains"⟩].map AnyLookup.name
        = [.str (strOf "icontains")]
    ∧ LookupV.str (strOf "bogus") ≠ .str (strOf "icontains") :=
  ⟨rfl, rfl, by decide⟩

/-- Claim C5 (amended): when no (or a falsy) `default_lookup` is
supplied it equals the first lookup's name; a truthy supplied value is
stored as given, with no check that it names one of the lookups. -/
theorem claimC5_amended (l0 : AnyLookup) (rest : List AnyLookup) (lbl : Str)
    (t : Option Transmuter) :
    Filter.make (l0 :: rest) Option.none (some lbl) t
      = .ok ⟨[], l0 :: rest, l0.name, lbl, t⟩
    ∧ ∀ v : LookupV, Filter.make (l0 :: rest) (some v) (some lbl) t
        = .ok ⟨[], l0 :: rest, if v.truthy then v else l0.name, lbl, t⟩ :=
  ⟨rfl, fun _ => rfl⟩

/-- Claim C8: constructing a `Filter` with zero lookups always fails
with the source's error message, producing no filter value. -/
theorem claimC8 (dl : Option LookupV) (lbl : Option Str) (t : Option Transmuter) :
    Filter.make [] dl lbl t
      = .error (strOf "Must specify at least one lookup for the filter (e.g. InputLookup).") :=
  rfl

/-- Claim C10: a sticky filter constructed without an explicit
`unstick_value` stores `None` as its unstick value, and transmuting the
value `None` then yields no predicate, because the cleaned value is
compared to the unstick value by equality. -/
theorem claimC10 (lookups : List AnyLookup) (dl : Option LookupV) (lbl : Option Str)
    (t : Option Transmuter) (dv : PyVal) (sf : StickyFilter)
    (h : StickyFilter.make lookups dl lbl t dv Option.none = .ok sf) (qs : QuerySet) :
    sf.unstick_value = PyVal.none
    ∧ sf.transmute PyVal.none qs Option.none = Option.none := by
  have hu : sf.unstick_value = PyVal.none := by
    unfold StickyFilter.make at h
    split at h
    · exact absurd h (by simp)
    · split at h
      · exact absurd h (by simp)
      · injection h with h2
        rw [← h2]
        rfl
  refine ⟨hu, ?_⟩
  simp [StickyFilter.transmute, StickyFilter.to_cleaned_value, hu]

/-- The sticky filter produced by `StickyFilter.make` for the witness
of claim C10 (unstick value omitted). -/
def c10sticky : StickyFilter :=
  ⟨⟨[], [categoryLookup], .str (strOf "exact"), strOf "Category", Option.none⟩,
   PyVal.str (strOf "Kitchen"), PyVal.none⟩

/-- Witness for claim C10: a concrete sticky filter made without an
`unstick_value`. -/
theorem claimC10_witness :
    c10sticky.unstick_value = PyVal.none
    ∧ c10sticky.transmute PyVal.none ⟨0⟩ Option.none = Option.none :=
  claimC10 [categoryLookup] Option.none (some (strOf "Category")) Option.none
    (PyVal.str (strOf "Kitchen")) c10sticky rfl ⟨0⟩

/-- Claim C6: a choice lookup resolves its choices in order: the static
list when one was given, otherwise the resolver's result (invoked with
the lookup and the field), otherwise the field catalog's own choices
for the field, excluding the blank sentinel. -/
theorem claimC6 (lu : ChoiceLookup) (field : Field) :
    (∀ cs, lu.choicesArg = some (.static cs) →
        (lu.get_options_schema_definition field).choices = some cs)
    ∧ (∀ fn, lu.choicesArg = some (.resolver fn) →
        (lu.get_options_schema_definition field).choices = some (fn lu.core field))
    ∧ (lu.choicesArg = Option.none →
        (lu.get_options_schema_definition field).choices = some field.choices) := by
  refine ⟨?_, ?_, ?_⟩
  · intro cs h
    simp [ChoiceLookup.get_options_schema_definition, h]
  · intro fn h
    simp [ChoiceLookup.get_options_schema_definition, h]
  · intro h
    simp [ChoiceLookup.get_options_schema_definition, h, Field.get_choices]

/-- The `type` field of the market `Product` model, used as a concrete
field handle. -/
def typeField : Field :=
  ⟨strOf "type", strOf "type", [],
   [(PyVal.str (strOf "manual"), strOf "Manual"), (PyVal.str (strOf "bulk"), strOf "Bulk")]⟩

/-- A static choice list for the witness of claim C6. -/
def staticChoices : List (PyVal × Str) :=
  [(PyVal.str (strOf "any"), strOf "Any"), (PyVal.str (strOf "manual"), strOf "Manual")]

/-- A resolver function for the witness of claim C6. -/
def dynamicChoices : LookupCore → Field → List (PyVal × Str) :=
  fun _lu field => field.choices ++ staticChoices

/-- Witness for claim C6: the three resolution modes at concrete choice
lookups over the `type` field. -/
theorem claimC6_witness :
    (ChoiceLookup.get_options_schema_definition
        ⟨⟨.str (strOf "exact"), strOf "is"⟩, some (.static staticChoices)⟩ typeField).choices
      = some staticChoices
    ∧ (ChoiceLookup.get_options_schema_definition
        ⟨⟨.str (strOf "exact"), strOf "is"⟩, some (.resolver dynamicChoices)⟩ typeField).choices
      = some (dynamicChoices ⟨.str (strOf "exact"), strOf "is"⟩ typeField)
    ∧ (ChoiceLookup.get_options_schema_definition
        ⟨⟨.str (strOf "exact"), strOf "is"⟩, Option.none⟩ typeField).choices
      = some typeField.choices :=
  ⟨(claimC6 ⟨⟨.str (strOf "exact"), strOf "is"⟩, some (.static staticChoices)⟩ typeField).1
      staticChoices rfl,
   (claimC6 ⟨⟨.str (strOf "exact"), strOf "is"⟩, some (.resolver dynamicChoices)⟩ typeField).2.1
      dynamicChoices rfl,
   (claimC6 ⟨⟨.str (strOf "exact"), strOf "is"⟩, Option.none⟩ typeField).2.2 rfl⟩

/-! ## `schema.py`: the options descriptor and the structural JSON schema -/

/-- JSON-compatible values (the documents built by `schema.py`). -/
inductive JSON where
  | null
  | bool (b : Bool)
  | str (s : Str)
  | num (n : Int)
  | arr (elems : List JSON)
  | obj (entries : List (Str × JSON))

/-- Dictionary access: the value at a key of a JSON object, if any. -/
def JSON.get? : JSON → Str → Option JSON
  | .obj kvs, k => (kvs.find? (fun kv => kv.1 == k)).map (fun kv => kv.2)
  | _, _ => Option.none

/-- The keys of a JSON object. -/
def JSON.keys : JSON → List Str
  | .obj kvs => kvs.map (fun kv => kv.1)
  | _ => []

/-- The bound model handle (`filterset._meta.model`): its name and the
fields exposed by the external field catalog. -/
structure PyModel where
  model_name : Str
  fields : List Field

/-- `FilteringOptionsSchema._get_field`: look up a model field by name
(Django raises `FieldDoesNotExist` when absent, modelled by
`Option.none`). -/
def PyModel.get_field (m : PyModel) (name : Str) : Option Field :=
  m.fields.find? (fun fl => fl.name == name)

/-- A filter bound into a FilterSet: plain or sticky. -/
inductive BoundFilter where
  | plain (f : Filter)
  | sticky (sf : StickyFilter)

/-- Whether a bound filter is sticky. -/
def BoundFilter.isSticky : BoundFilter → Bool
  | .plain _ => false
  | .sticky _ => true

/-- Modelled from the spec: the `FilterSet` class is not under `src/`
(only its callers are); the schema generators read just the bound
model, the bound filters, and the derived `valid_filters` registry
(ordered mapping field name → allowed lookup names), so only those are
carried here. -/
structure FilterSet where
  model : PyModel
  filters : List (Str × BoundFilter)
  valid_filters : List (Str × List Str)

/-- Python's `str.title()` restricted to alphabetic words: the first
letter of each alphabetic run uppercased, the rest lowercased. -/
def pyTitleAux : Bool → Str → Str
  | _, [] => []
  | prev, c :: rest => (if prev then c.toLower else c.toUpper) :: pyTitleAux c.isAlpha rest

/-- Python's `str.title()`. -/
def pyTitle (s : Str) : Str := pyTitleAux false s

/-- The per-filter info entry produced by `FilteringOptionsSchema.schema`
for one `valid_filters` item: type, field type, lookups, label, and a
description only when the field has help text. -/
def optionsFieldInfo (field : Field) (lookups : List Str) : JSON :=
  JSON.obj
    ([(strOf "type", JSON.str (strOf "field")),
      (strOf "field_type", JSON.str (strOf "string")),
      (strOf "lookups", JSON.arr (lookups.map JSON.str)),
      (strOf "label", JSON.str (pyTitle field.verbose_name))]
     ++ (if field.help_text.isEmpty then []
         else [(strOf "description", JSON.str field.help_text)]))

/-- The `filters` entries of the options schema: each `valid_filters`
item paired with its info entry; `Option.none` when a field name cannot
be resolved on the model (Django would raise `FieldDoesNotExist`). -/
def optionsFilterEntries (m : PyModel) : List (Str × List Str) → Option (List (Str × JSON))
  | [] => some []
  | (nm, lks) :: rest =>
    match m.get_field nm, optionsFilterEntries m rest with
    | some field, some tail => some ((nm, optionsFieldInfo field lks) :: tail)
    | _, _ => Option.none

/-- The fixed `operators` part of the options schema. -/
def optionsOperators : JSON :=
  JSON.obj
    [(strOf "and", JSON.obj [(strOf "type", JSON.str (strOf "operator")),
        (strOf "label", JSON.str (strOf "All of..."))]),
     (strOf "or", JSON.obj [(strOf "type", JSON.str (strOf "operator")),
        (strOf "label", JSON.str (strOf "Any of..."))]),
     (strOf "not", JSON.obj [(strOf "type", JSON.str (strOf "operator")),
        (strOf "label", JSON.str (strOf "None of..."))])]

/-- `FilteringOptionsSchema.schema`: `{"operators": ..., "filters": ...}`. -/
def FilteringOptionsSchema.schema (fs : FilterSet) : Option JSON :=
  (optionsFilterEntries fs.model fs.valid_filters).map
    (fun entries => JSON.obj [(strOf "operators", optionsOperators),
                              (strOf "filters", JSON.obj entries)])

/-- Modelled from the spec: `deconstruct_query` is imported by
`filters.py` from `utils.py` but absent from the snapshot; per the spec
it serializes a predicate back into query data ("serialized default
predicate"), which for the single-argument `Q` objects of this model is
the deconstruction of that argument. -/
def deconstruct_query (q : Q) : QueryDataVar :=
  deconstruct_field_lookup_arg q.arg.1 q.arg.2 Option.none

/-- The info dict of `Filter.get_options_schema_info`: default lookup,
per-lookup definitions, label, optional help text; the sticky override
adds `is_sticky` / `sticky_default` (both absent for plain filters,
modelled as `Option.none`). -/
structure OptionsInfo where
  default_lookup : LookupV
  lookups : List (LookupV × OptionsDefinition)
  label : Str
  help_text : Option Str
  is_sticky : Option Bool
  sticky_default : Option QueryDataVar

/-- `get_options_schema_definition` of a bound lookup. -/
def AnyLookup.get_options_schema_definition (lu : AnyLookup) (field : Field) :
    OptionsDefinition :=
  match lu with
  | .input c => InputLookup.get_options_schema_definition c field
  | .choice c => ChoiceLookup.get_options_schema_definition c field

/-- `Filter.get_options_schema_info`. -/
def Filter.get_options_schema_info (f : Filter) (field : Field) (_qs : QuerySet) :
    OptionsInfo :=
  ⟨f.default_lookup,
   f.lookups.map (fun lu => (lu.name, lu.get_options_schema_definition field)),
   f.label,
   if field.help_text.isEmpty then Option.none else some field.help_text,
   Option.none, Option.none⟩

/-- `StickyFilter.get_options_schema_info`: the base info plus
`is_sticky = True` and the serialized sticky default predicate. -/
def StickyFilter.get_options_schema_info (sf : StickyFilter) (field : Field)
    (qs : QuerySet) : OptionsInfo :=
  let info := sf.toFilter.get_options_schema_info field qs
  { info with
      is_sticky := some true,
      sticky_default := (sf.get_sticky_Q qs).map deconstruct_query }

mutual
/-- Modelled from the spec: a necessary condition for a document to be
"itself a schema-valid document" under the JSON-Schema 2020-12
meta-schema — every element of an `anyOf`/`oneOf` array must itself be
a schema, i.e. a JSON object or boolean, never a plain string. -/
def subschemasOk : JSON → Bool
  | .obj kvs => entriesOk kvs
  | .arr es => elemsOk es
  | _ => true

/-- Check the entries of a JSON object (see `subschemasOk`). -/
def entriesOk : List (Str × JSON) → Bool
  | [] => true
  | (k, v) :: rest =>
    (if k == strOf "anyOf" || k == strOf "oneOf" then
       (match v with
        | .arr es => es.all (fun e =>
            match e with
            | .obj _ => true
            | .bool _ => true
            | _ => false)
        | _ => false)
     else true)
      && subschemasOk v && entriesOk rest

/-- Check the elements of a JSON array (see `subschemasOk`). -/
def elemsOk : List JSON → Bool
  | [] => true
  | j :: rest => subschemasOk j && elemsOk rest
end

/-- `BASE_DEFINITIONS` from `schema.py`: the fixed `and-or-op` and
`not-op` definitions (these reference sub-definitions through proper
`$ref` objects). -/
def BASE_DEFINITIONS : List (Str × JSON) :=
  [(strOf "and-or-op", JSON.obj
     [(strOf "type", JSON.str (strOf "array")),
      (strOf "prefixItems", JSON.arr
        [JSON.obj [(strOf "enum", JSON.arr [JSON.str (strOf "and"), JSON.str (strOf "or")])],
         JSON.obj
           [(strOf "type", JSON.str (strOf "array")),
            (strOf "items", JSON.obj
              [(strOf "anyOf", JSON.arr
                [JSON.obj [(strOf "$ref", JSON.str (strOf "#/$defs/filters"))],
                 JSON.obj [(strOf "$ref", JSON.str (strOf "#/$defs/and-or-op"))],
                 JSON.obj [(strOf "$ref", JSON.str (strOf "#/$defs/not-op"))]])])]])]),
   (strOf "not-op", JSON.obj
     [(strOf "type", JSON.str (strOf "array")),
      (strOf "prefixItems", JSON.arr
        [JSON.obj [(strOf "const", JSON.str (strOf "not"))],
         JSON.obj
           [(strOf "oneOf", JSON.arr
             [JSON.obj [(strOf "$ref", JSON.str (strOf "#/$defs/filters"))],
              JSON.obj [(strOf "$ref", JSON.str (strOf "#/$defs/and-or-op"))],
              JSON.obj [(strOf "$ref", JSON.str (strOf "#/$defs/not-op"))]])]])])]

/-- The generated `"<field>-filter"` definition: a 2-tuple of the field
name constant and an object whose `lookup` is constrained to the
field's valid lookups and whose `value` is a string. -/
def fieldFilterDefinition (filter_name : Str) (lookups : List Str) : JSON :=
  JSON.obj
    [(strOf "type", JSON.str (strOf "array")),
     (strOf "prefixItems", JSON.arr
       [JSON.obj [(strOf "const", JSON.str filter_name)],
        JSON.obj
          [(strOf "type", JSON.str (strOf "object")),
           (strOf "properties", JSON.obj
             [(strOf "lookup", JSON.obj [(strOf "enum", JSON.arr (lookups.map JSON.str))]),
              (strOf "value", JSON.obj [(strOf "type", JSON.str (strOf "string"))])])]])]

/-- `JSONSchema.schema`: the base definitions, one generated definition
per valid filter, the `filters` union (an `anyOf` array holding plain
reference strings, exactly as the source builds it), and the root
object whose `query` property references `and-or-op`. -/
def JSONSchema.schema (fs : FilterSet) : JSON :=
  let definitions :=
    BASE_DEFINITIONS
      ++ fs.valid_filters.map (fun p => (p.1 ++ strOf "-filter", fieldFilterDefinition p.1 p.2))
      ++ [(strOf "filters", JSON.obj
            [(strOf "anyOf", JSON.arr (fs.valid_filters.map
              (fun p => JSON.str (strOf "#/$defs/" ++ p.1 ++ strOf "-filter"))))])]
  JSON.obj
    [(strOf "$id", JSON.str (strOf "https://example.com/exp.json")),
     (strOf "$schema", JSON.str (strOf "https://json-schema.org/draft/2020-12/schema")),
     (strOf "title", JSON.str (pyTitle fs.model.model_name ++ strOf " Schema")),
     (strOf "type", JSON.str (strOf "object")),
     (strOf "properties", JSON.obj
       [(strOf "query", JSON.obj [(strOf "$ref", JSON.str (strOf "#/$defs/and-or-op"))])]),
     (strOf "$defs", JSON.obj definitions)]

/-! ## Fixtures for the schema claims -/

/-- The `name` field of the market `Product` model. -/
def nameField : Field := ⟨strOf "name", strOf "name", [], []⟩

/-- The `category` field of the market `Product` model. -/
def categoryField : Field := ⟨strOf "category", strOf "category", [], []⟩

/-- The market `Product` model handle. -/
def productModel : PyModel := ⟨strOf "product", [nameField, categoryField]⟩

/-- A FilterSet mirroring `KitchenProductFilterSet`: a plain `name`
filter and the sticky `category` filter. -/
def kitchenFS : FilterSet :=
  ⟨productModel,
   [(strOf "name", .plain ⟨strOf "name",
      [.input ⟨.str (strOf "icontains"), strOf "contains"⟩],
      .str (strOf "icontains"), strOf "Name", Option.none⟩),
    (strOf "category", .sticky categorySticky)],
   [(strOf "name", [strOf "icontains"]), (strOf "category", [strOf "exact"])]⟩

/-- The options-schema filter entries generated for `kitchenFS`. -/
def kitchenEntries : List (Str × JSON) :=
  [(strOf "name", optionsFieldInfo nameField [strOf "icontains"]),
   (strOf "category", optionsFieldInfo categoryField [strOf "exact"])]

/-- The scoped FilterSet of the spec's concrete scenarios: `age` with
`gte`/`lte` and `sex` with `exact` on the `participant` model. -/
def scopedFS : FilterSet :=
  ⟨⟨strOf "participant",
    [⟨strOf "age", strOf "age", [], []⟩, ⟨strOf "sex", strOf "sex", [], []⟩]⟩,
   [],
   [(strOf "age", [strOf "gte", strOf "lte"]), (strOf "sex", [strOf "exact"])]⟩

/-! ## Claims about the schema generators -/

/-- The entry generated for one resolvable `valid_filters` item appears
in the generated entries list. -/
theorem optionsFilterEntries_mem (m : PyModel) (nm : Str) (lks : List Str) (field : Field)
    (h2 : m.get_field nm = some field) :
    ∀ (l : List (Str × List Str)) (entries : List (Str × JSON)),
      (nm, lks) ∈ l → optionsFilterEntries m l = some entries →
      (nm, optionsFieldInfo field lks) ∈ entries := by
  intro l
  induction l with
  | nil =>
    intro entries h1 _
    cases h1
  | cons hd tl ih =>
    intro entries h1 h3
    obtain ⟨a, b⟩ := hd
    rw [optionsFilterEntries] at h3
    split at h3
    · rename_i fld tail hfld htail
      injection h3 with h3e
      subst h3e
      rcases List.mem_cons.mp h1 with heq | htl
      · injection heq with e1 e2
        subst e1
        subst e2
        rw [h2] at hfld
        injection hfld with hf
        subst hf
        exact List.mem_cons_self _ _
      · exact List.mem_cons_of_mem _ (ih _ htl htail)
    · exact absurd h3 (by simp)

/-- Claim C3: the generated options descriptor entry for a sticky
filter's field includes the sticky default metadata — refuted:
`FilteringOptionsSchema.schema` builds every entry from `valid_filters`
and the model field alone and never consults the bound filters, so the
entry for the sticky `category` filter of the kitchen FilterSet carries
ordinary information but no `is_sticky`/`sticky_default` keys. -/
theorem claimC3_counterexample :
    (kitchenFS.filters.map (fun p => (p.1, p.2.isSticky)))
      = [(strOf "name", false), (strOf "category", true)]
    ∧ ((FilteringOptionsSchema.schema kitchenFS).bind (fun j => j.get? (strOf "filters"))
        |>.bind (fun j => j.get? (strOf "category"))
        |>.bind (fun j => j.get? (strOf "type"))) = some (.str (strOf "field"))
    ∧ ((FilteringOptionsSchema.schema kitchenFS).bind (fun j => j.get? (strOf "filters"))
        |>.bind (fun j => j.get? (strOf "category"))
        |>.bind (fun j => j.get? (strOf "sticky_default"))) = Option.none
    ∧ ((FilteringOptionsSchema.schema kitchenFS).bind (fun j => j.get? (strOf "filters"))
        |>.bind (fun j => j.get? (strOf "category"))
        |>.bind (fun j => j.get? (strOf "is_sticky"))) = Option.none :=
  ⟨rfl, rfl, rfl, rfl⟩

/-- Claim C3 (amended): the generated options descriptor entry for any
resolvable field — sticky or not — carries exactly the ordinary
information (`type`, `field_type`, `lookups`, `label`, plus
`description` only when the field has help text) and no sticky
metadata; the sticky metadata (`is_sticky` and the serialized default
predicate `sticky_default`) is produced only by
`StickyFilter.get_options_schema_info`, which the generator never
invokes. -/
theorem claimC3_amended (fs : FilterSet) (nm : Str) (lks : List Str) (field : Field)
    (entries : List (Str × JSON))
    (h1 : (nm, lks) ∈ fs.valid_filters)
    (h2 : fs.model.get_field nm = some field)
    (h3 : optionsFilterEntries fs.model fs.valid_filters = some entries) :
    (nm, optionsFieldInfo field lks) ∈ entries
    ∧ FilteringOptionsSchema.schema fs
        = some (JSON.obj [(strOf "operators", optionsOperators),
                          (strOf "filters", JSON.obj entries)])
    ∧ (optionsFieldInfo field lks).get? (strOf "type") = some (.str (strOf "field"))
    ∧ (optionsFieldInfo field lks).get? (strOf "field_type") = some (.str (strOf "string"))
    ∧ (optionsFieldInfo field lks).get? (strOf "lookups")
        = some (.arr (lks.map JSON.str))
    ∧ (optionsFieldInfo field lks).get? (strOf "label")
        = some (.str (pyTitle field.verbose_name))
    ∧ (optionsFieldInfo field lks).get? (strOf "is_sticky") = Option.none
    ∧ (optionsFieldInfo field lks).get? (strOf "sticky_default") = Option.none
    ∧ ∀ (sf : StickyFilter) (qs : QuerySet), sf.default_value ≠ sf.unstick_value →
        (sf.get_options_schema_info field qs).is_sticky = some true
        ∧ (sf.get_options_schema_info field qs).sticky_default
            = some (deconstruct_query ⟨construct_field_lookup_arg sf.toFilter.name
                sf.default_value (some sf.toFilter.default_lookup)⟩) := by
  refine ⟨optionsFilterEntries_mem fs.model nm lks field h2 fs.valid_filters entries h1 h3,
    ?_, rfl, rfl, rfl, rfl, ?_, ?_, ?_⟩
  · unfold FilteringOptionsSchema.schema
    rw [h3]
    rfl
  · cases hh : field.help_text.isEmpty <;> simp only [optionsFieldInfo, hh] <;> rfl
  · cases hh : field.help_text.isEmpty <;> simp only [optionsFieldInfo, hh] <;> rfl
  · intro sf qs hv
    refine ⟨rfl, ?_⟩
    show ((sf.get_sticky_Q qs).map deconstruct_query) = _
    unfold StickyFilter.get_sticky_Q
    simp [StickyFilter.transmute, StickyFilter.to_cleaned_value, hv]

/-- Witness for the amended claim C3: the sticky `category` field of
the kitchen FilterSet. -/
theorem claimC3_witness :
    (strOf "category", optionsFieldInfo categoryField [strOf "exact"]) ∈ kitchenEntries
    ∧ (optionsFieldInfo categoryField [strOf "exact"]).get? (strOf "sticky_default")
        = Option.none
    ∧ (categorySticky.get_options_schema_info categoryField ⟨0⟩).is_sticky = some true :=
  ⟨(claimC3_amended kitchenFS (strOf "category") [strOf "exact"] categoryField
      kitchenEntries (by decide) rfl rfl).1,
   (claimC3_amended kitchenFS (strOf "category") [strOf "exact"] categoryField
      kitchenEntries (by decide) rfl rfl).2.2.2.2.2.2.2.1,
   ((claimC3_amended kitchenFS (strOf "category") [strOf "exact"] categoryField
      kitchenEntries (by decide) rfl rfl).2.2.2.2.2.2.2.2 categorySticky ⟨0⟩
      (by decide)).1⟩

/-- Claim C7: the generated structural schema has the claimed per-field
definitions, `filters` union and root `query` reference, and "is itself
a schema-valid document" — the last part fails: the `filters`
definition's `anyOf` array holds plain reference strings (not `$ref`
schema objects, as `BASE_DEFINITIONS` correctly uses), and the
JSON-Schema 2020-12 meta-schema requires every `anyOf` element to be a
schema (an object or boolean), so the document fails meta-validation
(`subschemasOk` is a necessary condition of it). -/
theorem claimC7_bug :
    ((JSONSchema.schema scopedFS).get? (strOf "$defs")
        |>.bind (fun j => j.get? (strOf "age-filter")))
      = some (fieldFilterDefinition (strOf "age") [strOf "gte", strOf "lte"])
    ∧ ((JSONSchema.schema scopedFS).get? (strOf "$defs")
        |>.bind (fun j => j.get? (strOf "sex-filter")))
      = some (fieldFilterDefinition (strOf "sex") [strOf "exact"])
    ∧ ((JSONSchema.schema scopedFS).get? (strOf "$defs")
        |>.bind (fun j => j.get? (strOf "filters")))
      = some (JSON.obj [(strOf "anyOf", JSON.arr
          [JSON.str (strOf "#/$defs/age-filter"), JSON.str (strOf "#/$defs/sex-filter")])])
    ∧ ((JSONSchema.schema scopedFS).get? (strOf "properties")
        |>.bind (fun j => j.get? (strOf "query")))
      = some (JSON.obj [(strOf "$ref", JSON.str (strOf "#/$defs/and-or-op"))])
    ∧ subschemasOk (JSONSchema.schema scopedFS) = false
    ∧ subschemasOk (JSON.obj BASE_DEFINITIONS) = true :=
  ⟨rfl, rfl, rfl, rfl, rfl, rfl⟩
